import Mathlib

/-!
Shallow embedding of `src/events_automation/script_alertas.py` (class
`BatchProcessor`) and proofs about the claims of the specification.

Modelling conventions:
* Python dicts whose keys matter are association lists `List (String × _)`;
  Python `None` is `Option.none`; a `.get(k)` that can be absent is `Option`.
* HTTP traffic (`requests.get`) is an explicit environment `HttpEnv`: each
  URL is mapped to either a transport/HTTP failure (`Except.error`) or the
  decoded response.  `json.loads` of each line of an event file is likewise
  pre-decoded into `JsonLine` (the JSON decoder itself is an external
  library and is not re-verified here).
* `datetime.now()` readings are explicit parameters (`now` as the already
  formatted `strftime` string, `nowMicros` as microseconds since the epoch,
  which is the real resolution of `datetime`).
* Python runtime faults (TypeError / AttributeError / IndexError) that the
  script can actually raise are modelled with `Except PyErr`.
* The call `self.build_card_message(...)` in `process_and_notify` is a
  bound-method call on a function declared without `self`, so the argument
  values shift one slot; to express this faithfully the builder is embedded
  over a small universe `PyVal` of the Python values that can reach its
  parameters, with the dynamic checks of the operations the source applies
  to them.  Value shapes that can never reach an operation in any modelled
  run are mapped to a runtime error and marked by a comment.
-/

namespace AEPAlertas

/-- Python runtime errors that the embedded code can raise. -/
inductive PyErr where
  | typeError (msg : String)
  | attributeError (msg : String)
  | indexError (msg : String)
deriving Repr, DecidableEq

/-- A widget of a Google Chat card: either a `textParagraph` or a
`keyValue` entry, as produced by `build_card_message`. -/
inductive Widget where
  | textParagraph (text : String)
  | keyValue (topLabel content : String) (contentMultiline : Bool)
deriving Repr, DecidableEq

/-- A `sections` element: a list of widgets. -/
structure CardSection where
  widgets : List Widget
deriving Repr, DecidableEq

/-- A card header: `title`, `subtitle`, `imageUrl`. -/
structure CardHeader where
  title : String
  subtitle : String
  imageUrl : String
deriving Repr, DecidableEq

/-- A Google Chat card. -/
structure Card where
  header : CardHeader
  sections : List CardSection
deriving Repr, DecidableEq

/-- The message document built by `build_card_message`:
`{"cards": [...]}`. -/
structure ChatMessage where
  cards : List Card
deriving Repr, DecidableEq

/-- One element of a batch's `relatedObjects`; only the optional `id`
key is read by the script. -/
structure RelatedObject where
  id : Option String
deriving Repr, DecidableEq

/-- One element of a batch's `errors`; only the optional `code` and
`description` keys are read. -/
structure BatchError where
  code : Option String
  description : Option String
deriving Repr, DecidableEq

/-- The batch's `tags` dict; only the optional `flowId` list is read. -/
structure BatchTags where
  flowId : Option (List String)
deriving Repr, DecidableEq

/-- A failed batch object as returned by the top-level query.  `tags` is
`none` when the `"tags"` key is absent (in which case the source falls
back to the *list* `[]` and the later `.get` call raises). -/
structure FailedBatch where
  failedBatchLocation : Option String
  relatedObjects : List RelatedObject
  errors : List BatchError
  tags : Option BatchTags
deriving Repr, DecidableEq

/-- An enriched event record appended to `batch_data_map`. -/
structure EventRecord where
  eventType : String
  webPageURL : String
deriving Repr, DecidableEq

/-- The Python values that can reach the parameters of
`build_card_message` in the modelled runs: `None`, strings, non-negative
integers, the two dict shapes produced by the pipeline, and the
`BatchProcessor` instance itself (which the bound-method call passes). -/
inductive PyVal where
  | pyNone
  | pyStr (s : String)
  | pyNat (n : Nat)
  | pyBatches (m : List (String × FailedBatch))
  | pyRecords (m : List (String × List EventRecord))
  | pySelf
deriving Repr, DecidableEq

/-- Python truthiness of the modelled values: `None`, `""`, `0` and empty
dicts are falsy; a plain object such as the `BatchProcessor` instance is
truthy. -/
def pyTruthy : PyVal → Bool
  | PyVal.pyNone => false
  | PyVal.pyStr s => s != ""
  | PyVal.pyNat n => n != 0
  | PyVal.pyBatches m => !m.isEmpty
  | PyVal.pyRecords m => !m.isEmpty
  | PyVal.pySelf => true

/-- Embeds `f"{v}"` for the modelled values.  Only `None`, strings and integers
are ever formatted in a modelled run; the repr of composite values is
left as an uninterpreted marker (no theorem depends on it). -/
def pyFormat : PyVal → String
  | PyVal.pyNone => "None"
  | PyVal.pyStr s => s
  | PyVal.pyNat n => toString n
  | PyVal.pyBatches _ => "<dict repr not modelled>"
  | PyVal.pyRecords _ => "<dict repr not modelled>"
  | PyVal.pySelf => "<BatchProcessor repr not modelled>"

/-- Embeds `int(v * k)` as applied to `days_back`: defined for numbers, a
`TypeError` otherwise (`None * 24`, `dict * 24`, object `* 24` all raise;
the string case, which no run reaches, is folded into the same error). -/
def pyMulInt (v : PyVal) (k : Nat) : Except PyErr Nat :=
  match v with
  | PyVal.pyNat n => Except.ok (n * k)
  | _ => Except.error (PyErr.typeError "unsupported operand type for *")

/-- Embeds `len(v)` for the modelled values. -/
def pyLen (v : PyVal) : Except PyErr Nat :=
  match v with
  | PyVal.pyStr s => Except.ok s.length
  | PyVal.pyBatches m => Except.ok m.length
  | PyVal.pyRecords m => Except.ok m.length
  | _ => Except.error (PyErr.typeError "object has no len")

/-- Embeds `v.items()` where the loop expects the failed-batches dict; any other
value raises (`None.items()`, `self.items()` are attribute errors). -/
def pyItemsBatches : PyVal → Except PyErr (List (String × FailedBatch))
  | PyVal.pyBatches m => Except.ok m
  | _ => Except.error (PyErr.attributeError "object has no attribute items")

/-- Renders an optional string the way an f-string does (`"None"` for `None`), as an f-string does with
the result of a `.get` that returned `None`. -/
def formatOptStr : Option String → String
  | none => "None"
  | some s => s

/-- Embeds `related_objects[0].get("id") if related_objects else "No disponible"`,
already rendered to the string the f-string would produce. -/
def relatedDatasetId (b : FailedBatch) : String :=
  match b.relatedObjects with
  | [] => "No disponible"
  | o :: _ => formatOptStr o.id

/-- Embeds `errors[0].get("code") if errors else "No disponible"`, rendered. -/
def errorCodeOf (b : FailedBatch) : String :=
  match b.errors with
  | [] => "No disponible"
  | e :: _ => formatOptStr e.code

/-- Embeds `errors[0].get("description") if errors else "No disponible"`,
rendered. -/
def errorDescriptionOf (b : FailedBatch) : String :=
  match b.errors with
  | [] => "No disponible"
  | e :: _ => formatOptStr e.description

/-- Embeds `tags.get("flowId", ["No disponible"])[0]` where
`tags = batch_info.get("tags", [])`: when the `"tags"` key is absent the
fallback is a *list*, and `list.get` raises `AttributeError`; when
`flowId` is present but empty, `[0]` raises `IndexError`; when `flowId`
is absent the default list supplies `"No disponible"`. -/
def flowIdOf (b : FailedBatch) : Except PyErr String :=
  match b.tags with
  | none => Except.error (PyErr.attributeError "list object has no attribute get")
  | some t =>
    match t.flowId with
    | none => Except.ok "No disponible"
    | some [] => Except.error (PyErr.indexError "list index out of range")
    | some (x :: _) => Except.ok x

/-- The `batch_details` f-string for one batch. -/
def batchDetails (batchId : String) (b : FailedBatch) : Except PyErr String :=
  (flowIdOf b).map (fun flowId =>
    "<b>Batch ID:</b> " ++ batchId ++ "<br>\n" ++
    "<b>&nbsp;&nbsp;• Dataflow:</b> " ++ flowId ++ "<br>" ++
    "<b>&nbsp;&nbsp;• Dataset ID:</b> " ++ relatedDatasetId b ++ "<br>" ++
    "<b>&nbsp;&nbsp;• Código de error:</b> " ++ errorCodeOf b ++ "<br>" ++
    "<b>&nbsp;&nbsp;• Descripción:</b> " ++ errorDescriptionOf b ++ "<br>")

/-- The two widgets appended for one enriched event record. -/
def recordWidgets (r : EventRecord) : List Widget :=
  [ Widget.textParagraph ("<b>&nbsp;&nbsp;• Tipo de evento:</b> " ++ r.eventType ++ "\n\n<br>"),
    Widget.keyValue "<b>Página de origen del evento</b>" r.webPageURL true ]

/-- The placeholder widget appended when a batch id is not a key of
`processed_batches`. -/
def noEventsWidget : Widget :=
  Widget.textParagraph "No se encontraron eventos para este batch."

/-- The widgets of a batch's section after the details paragraph:
`if batch_id in processed_batches: ... else: placeholder`. -/
def sectionWidgetsFor (m : List (String × List EventRecord)) (batchId : String) : List Widget :=
  match m.lookup batchId with
  | some recs => recs.flatMap recordWidgets
  | none => [noEventsWidget]

/-- The section built for one batch inside the loop of
`build_card_message`.  The membership test `batch_id in processed_batches`
needs `processed_batches` to be a container; in the modelled runs that
value is either the records dict or `None` (the latter raising
`TypeError`); no other shape reaches this point, so the remaining shapes
are folded into the same error. -/
def detailSection (pb : PyVal) (batchId : String) (b : FailedBatch) :
    Except PyErr CardSection := do
  let details ← batchDetails batchId b
  match pb with
  | PyVal.pyRecords m =>
    Except.ok { widgets := Widget.textParagraph details :: sectionWidgetsFor m batchId }
  | _ => Except.error (PyErr.typeError "argument is not a container")

/-- The error card of the first branch of `build_card_message`. -/
def errorCard (now msg : String) : ChatMessage :=
  { cards := [
      { header :=
          { title := "<b> ¡Algo ha salido mal! </b>"
            subtitle := "Enviado: <b>" ++ now ++ "</b>"
            imageUrl := "https://png.pngtree.com/png-vector/20230904/ourmid/pngtree-fail-stamp-grungy-png-image_9932568.png" }
        sections := [ { widgets := [Widget.textParagraph msg] } ] } ] }

/-- The "no errors" card of the second branch. -/
def noErrorsCard (now : String) (hours : Nat) (datasetText : String) : ChatMessage :=
  { cards := [
      { header :=
          { title := "<b> Informe de alertas </b>"
            subtitle := "Enviado: <b>" ++ now ++ "</b>"
            imageUrl := "https://cdn-icons-png.freepik.com/256/16206/16206597.png?semt=ais_hybrid" }
        sections := [
          { widgets := [Widget.textParagraph
              ("No se encontraron errores en las últimas <b>" ++ toString hours ++
               "</b> horas.\n\n<b>Dataset ID:</b> " ++ datasetText)] } ] } ] }

/-- The header of the detail report. -/
def alertHeader (now : String) : CardHeader :=
  { title := "<b> Informe de alertas </b>"
    subtitle := "Enviado: <b>" ++ now ++ "</b>"
    imageUrl := "https://cdn-icons-png.flaticon.com/512/559/559384.png" }

/-- The summary section of the detail report. -/
def summarySection (hours total : Nat) : CardSection :=
  { widgets := [Widget.textParagraph
      ("Se han consultado las últimas <b>" ++ toString hours ++
       "</b> horas. \nNúmero total de errores: <b>" ++ toString total ++ "</b>")] }

/-- Embeds `build_card_message(failed_batches, processed_batches, days_back,
dataset_id, error_message=None)` — declared in the source *without*
`self`.  `now` is the `datetime.now().strftime(...)` reading the function
makes while building each header.  Branches in source order; inside the
detail branch the summary f-string evaluates `int(days_back * 24)` and
`len(failed_batches)` before the loop runs. -/
def build_card_message (now : String)
    (failed_batches processed_batches days_back dataset_id error_message : PyVal) :
    Except PyErr ChatMessage :=
  if pyTruthy error_message then
    Except.ok (errorCard now (pyFormat error_message))
  else if !pyTruthy failed_batches then
    (pyMulInt days_back 24).map
      (fun hours => noErrorsCard now hours (pyFormat dataset_id))
  else do
    let hours ← pyMulInt days_back 24
    let total ← pyLen failed_batches
    let batches ← pyItemsBatches failed_batches
    let sections ← batches.mapM (fun p => detailSection processed_batches p.1 p.2)
    Except.ok
      { cards := [
          { header := alertHeader now
            sections := summarySection hours total :: sections } ] }

/-- The `self` link of one manifest item; only the optional `href`. -/
structure SelfLink where
  href : Option String
deriving Repr, DecidableEq

/-- The `_links` dict of one manifest item. -/
structure ItemLinks where
  self : Option SelfLink
deriving Repr, DecidableEq

/-- One element of the manifest's `data` array. -/
structure ManifestItem where
  links : Option ItemLinks
deriving Repr, DecidableEq

/-- The body returned by `GET failedBatchLocation`; `data` is the
`.get("data", [])` array (`[]` when the key is absent). -/
structure Manifest where
  data : List ManifestItem
deriving Repr, DecidableEq

/-- Embeds `item.get("_links", {}).get("self", {}).get("href")`: every absent
intermediate dict defaults to `{}`, producing `None` at the end. -/
def hrefOf (it : ManifestItem) : Option String :=
  match it.links with
  | none => none
  | some l =>
    match l.self with
    | none => none
    | some s => s.href

/-- The list comprehension collecting the truthy hrefs of a manifest. -/
def collectHrefs (man : Manifest) : List String :=
  man.data.filterMap (fun it =>
    match hrefOf it with
    | some h => if h == "" then none else some h
    | none => none)

/-- Holder of the `"URL"` key inside `webPageDetails`. -/
structure WebPageDetails where
  url : Option String
deriving Repr, DecidableEq

/-- The `web` dict of an `xdmEntity`. -/
structure WebInfo where
  webPageDetails : Option WebPageDetails
deriving Repr, DecidableEq

/-- The `xdmEntity` dict of a decoded line. -/
structure XdmEntity where
  eventType : Option String
  web : Option WebInfo
deriving Repr, DecidableEq

/-- The `body` dict of a decoded line. -/
structure LineBody where
  xdmEntity : Option XdmEntity
deriving Repr, DecidableEq

/-- A decoded event-file line. -/
structure ParsedLine where
  body : Option LineBody
deriving Repr, DecidableEq

/-- One line of an event file, as `json.loads` sees it: either a decode
failure (`json.JSONDecodeError`) or a decoded object.  (Lines holding a
valid JSON value that is not an object do not occur in the modelled
interface of §6 and are not represented.) -/
inductive JsonLine where
  | malformed
  | parsed (p : ParsedLine)
deriving Repr, DecidableEq

/-- Embeds `data.get("body", {}).get("xdmEntity", {})` of a decoded line. -/
def xdmOf (p : ParsedLine) : XdmEntity :=
  match p.body with
  | none => { eventType := none, web := none }
  | some b =>
    match b.xdmEntity with
    | none => { eventType := none, web := none }
    | some x => x

/-- Embeds `xdm_entity.get("eventType", "No disponible")`. -/
def eventTypeOf (x : XdmEntity) : String := x.eventType.getD "No disponible"

/-- Embeds `xdm_entity.get("web", {}).get("webPageDetails", {}).get("URL", "No disponible")`. -/
def webPageURLOf (x : XdmEntity) : String :=
  match x.web with
  | none => "No disponible"
  | some w =>
    match w.webPageDetails with
    | none => "No disponible"
    | some d => d.url.getD "No disponible"

/-- The record appended for one event-file line: on a decode error the
`"Error de unión"` / `"No disponible"` placeholder, otherwise the
extracted fields. -/
def processLine : JsonLine → EventRecord
  | JsonLine.malformed => { eventType := "Error de unión", webPageURL := "No disponible" }
  | JsonLine.parsed p =>
    { eventType := eventTypeOf (xdmOf p), webPageURL := webPageURLOf (xdmOf p) }

/-- The HTTP world of one run: what `requests.get` returns for a
failed-batch-location URL (a manifest) and for an event-file URL (whose
body is already split into lines and decoded per line). -/
structure HttpEnv where
  getManifest : String → Except String Manifest
  getFile : String → Except String (List JsonLine)

/-- One iteration of the first loop of `_process_failed_batches`: a batch
with a falsy `failedBatchLocation` or a failed manifest request
contributes no `failed_urls` key; a successful manifest request
contributes its (possibly empty) href list. -/
def collectEntry (env : HttpEnv) (p : String × FailedBatch) :
    Option (String × List String) :=
  match p.2.failedBatchLocation with
  | none => none
  | some loc =>
    if loc == "" then none
    else
      match env.getManifest loc with
      | Except.error _ => none
      | Except.ok man => some (p.1, collectHrefs man)

/-- First loop of `_process_failed_batches`: build `failed_urls`. -/
def collectFailedUrls (env : HttpEnv) (fb : List (String × FailedBatch)) :
    List (String × List String) :=
  fb.filterMap (collectEntry env)

/-- The records appended for one event-file URL: a single
`{"Error","Error"}` record on a transport failure, otherwise one record
per line. -/
def urlRecords (env : HttpEnv) (url : String) : List EventRecord :=
  match env.getFile url with
  | Except.error _ => [{ eventType := "Error", webPageURL := "Error" }]
  | Except.ok lines => lines.map processLine

/-- Second loop of `_process_failed_batches`: `batch_data_map` gets one
(possibly empty) entry per key of `failed_urls`. -/
def batchDataMap (env : HttpEnv) (failedUrls : List (String × List String)) :
    List (String × List EventRecord) :=
  failedUrls.map (fun p => (p.1, p.2.flatMap (urlRecords env)))

/-- The batch's location fetch collects nothing: the location is falsy
(`None` or `""`) or the manifest request fails. -/
def manifestUnavailable (env : HttpEnv) (b : FailedBatch) : Prop :=
  match b.failedBatchLocation with
  | none => True
  | some l => l = "" ∨ ∃ e, env.getManifest l = Except.error e

/-- The whole enrichment map produced from the failed-batches dict. -/
def enrichment (env : HttpEnv) (fb : List (String × FailedBatch)) :
    List (String × List EventRecord) :=
  batchDataMap env (collectFailedUrls env fb)

/-- Embeds `_process_failed_batches`: returns
`(failed_batches, batch_data_map, None)`. -/
def process_failed_batches (env : HttpEnv) (fb : List (String × FailedBatch)) :
    Option (List (String × FailedBatch)) × Option (List (String × List EventRecord)) × Option String :=
  (some fb, some (enrichment env fb), none)

/-- Embeds `get_failed_batches_data`: the top-level query's outcome is `top`
(`Except.error e` for a `requests.exceptions.RequestException` rendered
as `str(e)`, `Except.ok` for a decoded JSON map). -/
def get_failed_batches_data (env : HttpEnv)
    (top : Except String (List (String × FailedBatch))) :
    Option (List (String × FailedBatch)) × Option (List (String × List EventRecord)) × Option String :=
  match top with
  | Except.error e => (none, none, some ("<b>Error HTTP:</b>\n\n " ++ e))
  | Except.ok fb =>
    if fb.isEmpty then (none, none, none)
    else process_failed_batches env fb

/-- A message value as `post_message_to_google_chat` inspects it:
`.get("cards")` may be absent. -/
structure RawMessage where
  cards : Option (List Card)
deriving Repr, DecidableEq

/-- What the notifier does: log-and-return, or POST the payload to the
webhook with the given Content-Type. -/
inductive SendAction where
  | logErrorNoSend
  | post (url : String) (body : RawMessage) (contentType : String)
deriving Repr, DecidableEq

/-- Embeds `post_message_to_google_chat`: guard on `None` / falsy `cards`,
otherwise POST as JSON with `Content-Type: application/json`. -/
def post_message_to_google_chat (webhook : String) (msg : Option RawMessage) : SendAction :=
  match msg with
  | none => SendAction.logErrorNoSend
  | some m =>
    match m.cards with
    | none => SendAction.logErrorNoSend
    | some [] => SendAction.logErrorNoSend
    | some _ => SendAction.post webhook m "application/json"

/-- View of a built `ChatMessage` as the dict the notifier receives. -/
def toRaw (m : ChatMessage) : RawMessage := { cards := some m.cards }

/-- Lift of the fetch result's components into `PyVal`. -/
def toPyBatches : Option (List (String × FailedBatch)) → PyVal
  | none => PyVal.pyNone
  | some m => PyVal.pyBatches m

/-- Lift of the processed-batches component into `PyVal`. -/
def toPyRecords : Option (List (String × List EventRecord)) → PyVal
  | none => PyVal.pyNone
  | some m => PyVal.pyRecords m

/-- Lift of the error-message component into `PyVal`. -/
def toPyOptStr : Option String → PyVal
  | none => PyVal.pyNone
  | some s => PyVal.pyStr s

/-- Embeds `process_and_notify`: fetch, then
`self.build_card_message(failed_batches, processed_batches, error_message)`.
`build_card_message` is declared without `self`, so the bound call binds
`self` to the `failed_batches` parameter, the fetched map to
`processed_batches`, the processed map to `days_back`, the error string
to `dataset_id`, and leaves `error_message` at its default `None`.  An
exception from the builder propagates and the notifier is never
reached. -/
def process_and_notify (env : HttpEnv)
    (top : Except String (List (String × FailedBatch)))
    (now : String) (webhook : String) : Except PyErr SendAction :=
  let r := get_failed_batches_data env top
  (build_card_message now PyVal.pySelf (toPyBatches r.1) (toPyRecords r.2.1)
      (toPyOptStr r.2.2) PyVal.pyNone).map
    (fun msg => post_message_to_google_chat webhook (some (toRaw msg)))

/-- The query parameters of the top-level GET. -/
structure QueryParams where
  dataSet : String
  createdAfter : Nat
  createdBefore : Nat
  status : String
  orderBy : String
deriving Repr, DecidableEq

/-- Microseconds in `timedelta(days=1)`. -/
def microsPerDay : Nat := 86400000000

/-- Embeds `int(t.timestamp() * 1000)` for a UTC datetime held as microseconds
since the epoch (the resolution of `datetime`); exact arithmetic, the
float rounding of `timestamp()` is not modelled. -/
def epochMillis (micros : Nat) : Nat := micros / 1000

/-- The `params` dict built by `get_failed_batches_data` from the clock
reading `nowMicros` (microseconds since the epoch, UTC). -/
def query_params (nowMicros days_back : Nat) (dataset_id : String) : QueryParams :=
  { dataSet := dataset_id
    createdAfter := epochMillis (nowMicros - days_back * microsPerDay)
    createdBefore := epochMillis nowMicros
    status := "failed"
    orderBy := "asc:created" }

/-- Erase every card header's subtitle (the only place the clock reading
lands) from a builder result. -/
def stripSubtitles (r : Except PyErr ChatMessage) : Except PyErr ChatMessage :=
  r.map (fun m =>
    { cards := m.cards.map (fun c =>
        { c with header := { c.header with subtitle := "" } }) })

/-- Count the occurrences of the "no events found" placeholder widget in
a builder result. -/
def noEventsCount (r : Except PyErr ChatMessage) : Nat :=
  match r with
  | Except.error _ => 0
  | Except.ok m =>
    (m.cards.flatMap (fun c => c.sections.flatMap (fun s => s.widgets))).count noEventsWidget

/-! Concrete sample inputs used by witnesses and counterexamples. -/

/-- An HTTP world where every manifest request succeeds with an empty
`data` array. -/
def envEmptyManifest : HttpEnv :=
  { getManifest := fun _ => Except.ok { data := [] }
    getFile := fun _ => Except.error "not reached" }

/-- An HTTP world where every request fails with a transport error. -/
def envAllDown : HttpEnv :=
  { getManifest := fun _ => Except.error "connection refused"
    getFile := fun _ => Except.error "connection refused" }

/-- An HTTP world whose event files hold a well-formed line, a malformed
line, and another well-formed line. -/
def envMixedFile : HttpEnv :=
  { getManifest := fun _ => Except.error "not reached"
    getFile := fun _ => Except.ok
      [JsonLine.parsed { body := none }, JsonLine.malformed,
       JsonLine.parsed { body := none }] }

/-- A failed batch with a usable location and a one-element `flowId`. -/
def batchWithLocation : FailedBatch :=
  { failedBatchLocation := some "https://platform.example/loc"
    relatedObjects := []
    errors := []
    tags := some { flowId := some ["flow1"] } }

/-- A failed batch whose `"tags"` key is absent. -/
def batchNoTags : FailedBatch :=
  { failedBatchLocation := none
    relatedObjects := []
    errors := []
    tags := none }

/-- A card used to exercise the notifier. -/
def sampleCard : Card :=
  { header := { title := "t", subtitle := "s", imageUrl := "u" }
    sections := [] }

/-- The list of per-card section counts of a successfully built
message (`none` when the builder raised). -/
def sectionCounts (r : Except PyErr ChatMessage) : Option (List Nat) :=
  r.toOption.map (fun msg => msg.cards.map (fun c => c.sections.length))

/-- The `batch_details` text of `batchWithLocation` under the key
`"B1"`. -/
def sampleDetails : String :=
  "<b>Batch ID:</b> B1<br>\n<b>&nbsp;&nbsp;• Dataflow:</b> flow1<br>" ++
  "<b>&nbsp;&nbsp;• Dataset ID:</b> No disponible<br>" ++
  "<b>&nbsp;&nbsp;• Código de error:</b> No disponible<br>" ++
  "<b>&nbsp;&nbsp;• Descripción:</b> No disponible<br>"

/-! Helper lemmas shared by the claim theorems. -/

/-- Looking a key up in `batch_data_map` is looking it up in
`failed_urls` and enriching the url list. -/
theorem lookup_batchDataMap (env : HttpEnv) (us : List (String × List String))
    (bid : String) :
    List.lookup bid (batchDataMap env us) =
      (List.lookup bid us).map (fun urls => urls.flatMap (urlRecords env)) := by
  induction us with
  | nil => rfl
  | cons p us ih =>
    obtain ⟨k, urls⟩ := p
    rw [batchDataMap, List.map_cons]
    simp only [List.lookup]
    cases h : bid == k with
    | false => simp only [h]; exact ih
    | true => simp only [h, Option.map]

/-- A `failed_urls` entry keeps the key of its batch. -/
theorem collectEntry_key (env : HttpEnv) (p : String × FailedBatch)
    (q : String × List String) (h : collectEntry env p = some q) :
    q.1 = p.1 := by
  unfold collectEntry at h
  split at h
  · cases h
  · split at h
    · cases h
    · split at h
      · cases h
      · cases h; rfl

/-- A batch with an unavailable manifest contributes no `failed_urls`
entry. -/
theorem collectEntry_none (env : HttpEnv) (p : String × FailedBatch)
    (h : manifestUnavailable env p.2) : collectEntry env p = none := by
  unfold manifestUnavailable at h
  split at h
  next heq => simp [collectEntry, heq]
  next l heq =>
    rcases h with rfl | ⟨e, he⟩
    · simp [collectEntry, heq]
    · simp [collectEntry, heq, he]

/-- A batch with a truthy location and a successful manifest request
contributes its collected hrefs. -/
theorem collectEntry_some (env : HttpEnv) (p : String × FailedBatch)
    (l : String) (man : Manifest) (hloc : p.2.failedBatchLocation = some l)
    (hl : l ≠ "") (hman : env.getManifest l = Except.ok man) :
    collectEntry env p = some (p.1, collectHrefs man) := by
  simp [collectEntry, hloc, hman, hl]

/-- A key whose every binding has an unavailable manifest does not occur
in `failed_urls`. -/
theorem lookup_collectFailedUrls_none (env : HttpEnv)
    (fb : List (String × FailedBatch)) (bid : String)
    (h : ∀ b, (bid, b) ∈ fb → manifestUnavailable env b) :
    List.lookup bid (collectFailedUrls env fb) = none := by
  induction fb with
  | nil => rfl
  | cons p fb ih =>
    have ih' := ih (fun b hb => h b (List.mem_cons_of_mem _ hb))
    by_cases hk : bid = p.1
    · have hpair : (bid, p.2) = p := by rw [hk]
      have hun : manifestUnavailable env p.2 :=
        h p.2 (by rw [hpair]; exact List.mem_cons_self _ _)
      rw [collectFailedUrls, List.filterMap_cons, collectEntry_none env p hun]
      exact ih'
    · rcases hce : collectEntry env p with _ | q
      · rw [collectFailedUrls, List.filterMap_cons, hce]
        exact ih'
      · obtain ⟨qk, qv⟩ := q
        have hqk : qk = p.1 := collectEntry_key env p (qk, qv) hce
        have hne : (bid == qk) = false :=
          beq_false_of_ne (by rw [hqk]; exact hk)
        rw [collectFailedUrls, List.filterMap_cons, hce]
        simp only [List.lookup, hne]
        exact ih'

/-- A key bound (under distinct keys) to a batch whose manifest request
succeeds with zero collected hrefs occurs in `failed_urls` with the empty
url list. -/
theorem lookup_collectFailedUrls_empty (env : HttpEnv)
    (fb : List (String × FailedBatch)) (bid : String) (b : FailedBatch)
    (l : String) (man : Manifest)
    (hnd : (fb.map Prod.fst).Nodup) (hmem : (bid, b) ∈ fb)
    (hloc : b.failedBatchLocation = some l) (hl : l ≠ "")
    (hman : env.getManifest l = Except.ok man) (hh : collectHrefs man = []) :
    List.lookup bid (collectFailedUrls env fb) = some [] := by
  induction fb with
  | nil => cases hmem
  | cons p fb ih =>
    rcases List.mem_cons.mp hmem with heq | hmem'
    · have hp : p = (bid, b) := heq.symm
      subst hp
      have hce := collectEntry_some env (bid, b) l man hloc hl hman
      rw [collectFailedUrls, List.filterMap_cons, hce, hh]
      simp [List.lookup]
    · have hbid : bid ∈ fb.map Prod.fst :=
        List.mem_map.mpr ⟨(bid, b), hmem', rfl⟩
      have hk : bid ≠ p.1 := fun hkk =>
        (List.nodup_cons.mp hnd).1 (hkk ▸ hbid)
      have ih' := ih (List.nodup_cons.mp hnd).2 hmem'
      rcases hce : collectEntry env p with _ | q
      · rw [collectFailedUrls, List.filterMap_cons, hce]
        exact ih'
      · obtain ⟨qk, qv⟩ := q
        have hqk : qk = p.1 := collectEntry_key env p (qk, qv) hce
        have hne : (bid == qk) = false :=
          beq_false_of_ne (by rw [hqk]; exact hk)
        rw [collectFailedUrls, List.filterMap_cons, hce]
        simp only [List.lookup, hne]
        exact ih'

/-- When the flow-id extraction succeeds for every batch, the loop of the
detail branch produces one section per batch. -/
theorem mapM_detailSection_ok (m : List (String × List EventRecord))
    (bs : List (String × FailedBatch))
    (hok : ∀ p ∈ bs, ∃ s, flowIdOf p.2 = Except.ok s) :
    ∃ secs, bs.mapM (fun p => detailSection (PyVal.pyRecords m) p.1 p.2) =
        Except.ok secs ∧ secs.length = bs.length := by
  induction bs with
  | nil => exact ⟨[], rfl, rfl⟩
  | cons p bs ih =>
    obtain ⟨secs, hsecs, hlen⟩ := ih (fun q hq => hok q (List.mem_cons_of_mem _ hq))
    obtain ⟨s, hs⟩ := hok p (List.mem_cons_self _ _)
    obtain ⟨d, hd⟩ : ∃ d, batchDetails p.1 p.2 = Except.ok d := by
      rw [batchDetails, hs]
      exact ⟨_, rfl⟩
    have hsec : detailSection (PyVal.pyRecords m) p.1 p.2 =
        Except.ok { widgets := Widget.textParagraph d :: sectionWidgetsFor m p.1 } := by
      rw [detailSection, hd]
      rfl
    refine ⟨{ widgets := Widget.textParagraph d :: sectionWidgetsFor m p.1 } :: secs,
      ?_, by simp [hlen]⟩
    simp only [List.mapM_cons, hsec, hsecs]
    rfl

/-- Reduction of `Except.ok a >>= f` to `f a` (stated once so the claim
proofs can rewrite `do`-chains syntactically). -/
theorem ok_bind {α β : Type} (a : α) (f : α → Except PyErr β) :
    (Except.ok a >>= f : Except PyErr β) = f a := rfl

/-! Claim theorems. -/

/-- C1: the claim that every run of `process_and_notify` reaches the
notify step fails on the code: `build_card_message` is declared without
`self`, so the bound call shifts every argument one parameter to the
right; for every fetch outcome the builder then evaluates
`int(days_back * 24)` with `days_back` bound to the processed-batches
value (`None` or a dict) and raises `TypeError`, which propagates out of
`process_and_notify` before `post_message_to_google_chat` runs. -/
theorem c1_run_never_reaches_notify (env : HttpEnv)
    (top : Except String (List (String × FailedBatch))) (now webhook : String) :
    process_and_notify env top now webhook =
      Except.error (PyErr.typeError "unsupported operand type for *") := by
  cases top with
  | error e => rfl
  | ok fb =>
    cases fb with
    | nil => rfl
    | cons b bs => rfl

/-- C2 (counterexample): a failed batch whose manifest request succeeds
with an empty `data` array *does* get an entry in the enrichment map
(the empty list), and the built message renders no "no events found"
placeholder widget anywhere — both parts of the claim fail. -/
theorem c2_counterexample_zero_urls :
    List.lookup "B1" (enrichment envEmptyManifest [("B1", batchWithLocation)]) =
      some [] ∧
    noEventsCount (build_card_message "t"
        (PyVal.pyBatches [("B1", batchWithLocation)])
        (PyVal.pyRecords (enrichment envEmptyManifest [("B1", batchWithLocation)]))
        (PyVal.pyNat 1) (PyVal.pyStr "ds") PyVal.pyNone) = 0 :=
  ⟨rfl, rfl⟩

/-- C2 (amended): a failed batch whose `failedBatchLocation` is absent or
empty, or whose manifest request fails, gets no entry in the enrichment
map, and a batch id without an entry renders the explicit "no events
found" placeholder widget; but a batch whose manifest request succeeds
with zero collected file URLs gets an *empty-list* entry in the
enrichment map, and its section then carries only the batch-details
paragraph — neither event widgets nor the placeholder. -/
theorem c2_zero_url_batches :
    (∀ env fb bid, (∀ b, (bid, b) ∈ fb → manifestUnavailable env b) →
      List.lookup bid (enrichment env fb) = none) ∧
    (∀ env fb bid b l man, (fb.map Prod.fst).Nodup → (bid, b) ∈ fb →
      b.failedBatchLocation = some l → l ≠ "" →
      env.getManifest l = Except.ok man → collectHrefs man = [] →
      List.lookup bid (enrichment env fb) = some []) ∧
    (∀ m bid b d, List.lookup bid m = none → batchDetails bid b = Except.ok d →
      detailSection (PyVal.pyRecords m) bid b =
        Except.ok { widgets := [Widget.textParagraph d, noEventsWidget] } ∧
      noEventsWidget ∈ [Widget.textParagraph d, noEventsWidget]) ∧
    (∀ m bid b d, List.lookup bid m = some [] → batchDetails bid b = Except.ok d →
      detailSection (PyVal.pyRecords m) bid b =
        Except.ok { widgets := [Widget.textParagraph d] }) := by
  refine ⟨?_, ?_, ?_, ?_⟩
  · intro env fb bid h
    rw [enrichment, lookup_batchDataMap, lookup_collectFailedUrls_none env fb bid h]
    rfl
  · intro env fb bid b l man hnd hmem hloc hl hman hh
    rw [enrichment, lookup_batchDataMap,
      lookup_collectFailedUrls_empty env fb bid b l man hnd hmem hloc hl hman hh]
    rfl
  · intro m bid b d hl hd
    refine ⟨?_, by simp⟩
    rw [detailSection, hd]
    show (Except.ok { widgets := Widget.textParagraph d :: sectionWidgetsFor m bid } :
        Except PyErr CardSection) =
      Except.ok { widgets := [Widget.textParagraph d, noEventsWidget] }
    simp [sectionWidgetsFor, hl]
  · intro m bid b d hl hd
    rw [detailSection, hd]
    show (Except.ok { widgets := Widget.textParagraph d :: sectionWidgetsFor m bid } :
        Except PyErr CardSection) =
      Except.ok { widgets := [Widget.textParagraph d] }
    simp [sectionWidgetsFor, hl]

/-- C2 witness: the amended theorem applied to a batch with a failing
manifest request (no entry, placeholder rendered) and to a batch whose
manifest request succeeds with zero URLs (empty entry, no placeholder). -/
theorem c2_zero_url_batches_witness :
    List.lookup "B1" (enrichment envAllDown [("B1", batchWithLocation)]) = none ∧
    List.lookup "B1" (enrichment envEmptyManifest [("B1", batchWithLocation)]) =
      some [] ∧
    detailSection (PyVal.pyRecords []) "B1" batchWithLocation =
      Except.ok { widgets := [Widget.textParagraph sampleDetails, noEventsWidget] } ∧
    detailSection (PyVal.pyRecords [("B1", [])]) "B1" batchWithLocation =
      Except.ok { widgets := [Widget.textParagraph sampleDetails] } := by
  refine ⟨?_, ?_, ?_, ?_⟩
  · refine c2_zero_url_batches.1 envAllDown [("B1", batchWithLocation)] "B1" ?_
    intro b hb
    simp only [List.mem_singleton, Prod.mk.injEq, true_and] at hb
    subst hb
    exact Or.inr ⟨"connection refused", rfl⟩
  · exact c2_zero_url_batches.2.1 envEmptyManifest [("B1", batchWithLocation)]
      "B1" batchWithLocation "https://platform.example/loc" { data := [] }
      (by simp) (by simp) rfl (by decide) rfl rfl
  · exact (c2_zero_url_batches.2.2.1 [] "B1" batchWithLocation sampleDetails
      rfl rfl).1
  · exact c2_zero_url_batches.2.2.2 [("B1", [])] "B1" batchWithLocation
      sampleDetails rfl rfl

/-- C3 (counterexample): `build_card_message` on a non-empty
`failed_batches` map holding a batch without a `"tags"` key raises
`AttributeError` (`batch_info.get("tags", [])` falls back to a list and
`list.get` does not exist) instead of producing a message, so the
claimed section count is unattainable for this input. -/
theorem c3_counterexample_missing_tags :
    build_card_message "t" (PyVal.pyBatches [("b1", batchNoTags)])
        (PyVal.pyRecords []) (PyVal.pyNat 1) (PyVal.pyStr "d") PyVal.pyNone =
      Except.error (PyErr.attributeError "list object has no attribute get") ∧
    [("b1", batchNoTags)] ≠ ([] : List (String × FailedBatch)) :=
  ⟨rfl, by decide⟩

/-- C3 (amended): for every non-empty `failed_batches` map whose batches
all allow the flow-id extraction (a `tags` mapping is present and a
present `flowId` list is non-empty), `build_card_message` produces a
message of exactly one card whose section count is the number of batches
plus the leading summary section — one batch-details section per
batch. -/
theorem c3_one_section_per_batch (now : String)
    (bs : List (String × FailedBatch)) (m : List (String × List EventRecord))
    (n : Nat) (d : String) (em : PyVal)
    (hem : pyTruthy em = false) (hbs : bs ≠ [])
    (hok : ∀ p ∈ bs, ∃ s, flowIdOf p.2 = Except.ok s) :
    sectionCounts (build_card_message now (PyVal.pyBatches bs)
        (PyVal.pyRecords m) (PyVal.pyNat n) (PyVal.pyStr d) em) =
      some [bs.length + 1] := by
  obtain ⟨secs, hsecs, hlen⟩ := mapM_detailSection_ok m bs hok
  have hc1 : ¬(pyTruthy em = true) := by simp [hem]
  have hc2 : ¬((!pyTruthy (PyVal.pyBatches bs)) = true) := by
    cases bs with
    | nil => exact absurd rfl hbs
    | cons q qs => simp [pyTruthy]
  rw [build_card_message, if_neg hc1, if_neg hc2]
  simp only [pyMulInt, pyLen, pyItemsBatches, ok_bind]
  rw [hsecs]
  simp only [ok_bind]
  simp [sectionCounts, Except.toOption, hlen]

/-- C3 witness: the amended theorem at a one-batch map — one summary
section plus one batch section. -/
theorem c3_one_section_per_batch_witness :
    sectionCounts (build_card_message "t"
        (PyVal.pyBatches [("B1", batchWithLocation)]) (PyVal.pyRecords [])
        (PyVal.pyNat 1) (PyVal.pyStr "d") PyVal.pyNone) = some [2] := by
  refine c3_one_section_per_batch "t" [("B1", batchWithLocation)] [] 1 "d"
    PyVal.pyNone rfl (by decide) ?_
  intro p hp
  simp only [List.mem_singleton] at hp
  subst hp
  exact ⟨"flow1", rfl⟩

/-- C8 (counterexample): `build_card_message` reads the wall clock for
the `Enviado:` subtitle, so two calls with equal (builder) arguments at
different clock readings return different documents — the function is
not a pure function of its arguments. -/
theorem c8_counterexample_clock_dependence :
    build_card_message "2024-01-01 00:00:00" PyVal.pyNone (PyVal.pyRecords [])
        (PyVal.pyNat 1) (PyVal.pyStr "d") PyVal.pyNone ≠
      build_card_message "2024-01-01 00:00:01" PyVal.pyNone (PyVal.pyRecords [])
        (PyVal.pyNat 1) (PyVal.pyStr "d") PyVal.pyNone := by
  intro h
  have h1 : build_card_message "2024-01-01 00:00:00" PyVal.pyNone (PyVal.pyRecords [])
      (PyVal.pyNat 1) (PyVal.pyStr "d") PyVal.pyNone =
      Except.ok (noErrorsCard "2024-01-01 00:00:00" 24 "d") := rfl
  have h2 : build_card_message "2024-01-01 00:00:01" PyVal.pyNone (PyVal.pyRecords [])
      (PyVal.pyNat 1) (PyVal.pyStr "d") PyVal.pyNone =
      Except.ok (noErrorsCard "2024-01-01 00:00:01" 24 "d") := rfl
  rw [h1, h2] at h
  have h3 := Except.ok.inj h
  have h4 := congrArg (fun msg : ChatMessage =>
    (msg.cards.headD
      { header := { title := "", subtitle := "", imageUrl := "" },
        sections := [] }).header.subtitle) h3
  have h5 : ("Enviado: <b>2024-01-01 00:00:00</b>" : String) =
      "Enviado: <b>2024-01-01 00:00:01</b>" := h4
  exact absurd h5 (by decide)

/-- C8 (amended): the builder performs no I/O other than reading the
clock, and the clock reading only ever lands in the card headers'
`Enviado:` subtitles: erasing the subtitles makes the output a function
of the five arguments alone (equal arguments give equal stripped
output for any two clock readings). -/
theorem c8_pure_up_to_subtitle (now nowB : String) (fb pb db ds em : PyVal) :
    stripSubtitles (build_card_message now fb pb db ds em) =
      stripSubtitles (build_card_message nowB fb pb db ds em) := by
  rw [build_card_message, build_card_message]
  by_cases h1 : pyTruthy em = true
  · rw [if_pos h1, if_pos h1]
    rfl
  · rw [if_neg h1, if_neg h1]
    by_cases h2 : (!pyTruthy fb) = true
    · rw [if_pos h2, if_pos h2]
      cases pyMulInt db 24 <;> rfl
    · rw [if_neg h2, if_neg h2]
      cases hm : pyMulInt db 24 with
      | error e => rfl
      | ok hours =>
        cases hl : pyLen fb with
        | error e => rfl
        | ok total =>
          cases hb : pyItemsBatches fb with
          | error e => rfl
          | ok batches =>
            simp only [ok_bind]
            cases hs : batches.mapM (fun p => detailSection pb p.1 p.2) with
            | error e => rfl
            | ok secs => rfl

/-- C4 (counterexample): a file whose middle line is malformed yields the
Spanish placeholder `{"Error de unión", "No disponible"}`, not the
claim's `{eventType:"join error", webPageURL:"not available"}`. -/
theorem c4_counterexample_spanish_placeholder :
    urlRecords envMixedFile "https://file" =
      [ { eventType := "No disponible", webPageURL := "No disponible" },
        { eventType := "Error de unión", webPageURL := "No disponible" },
        { eventType := "No disponible", webPageURL := "No disponible" } ] ∧
    processLine JsonLine.malformed ≠
      { eventType := "join error", webPageURL := "not available" } := by
  exact ⟨rfl, by decide⟩

/-- C4 (amended): each line that fails JSON parsing yields exactly one
placeholder record `{eventType: "Error de unión", webPageURL: "No
disponible"}` for that line, and every other line of the same file is
still processed (one record per line, in order, none omitted). -/
theorem c4_malformed_line_placeholder (env : HttpEnv) (url : String)
    (pre post : List JsonLine)
    (h : env.getFile url = Except.ok (pre ++ JsonLine.malformed :: post)) :
    urlRecords env url =
      pre.map processLine ++
        { eventType := "Error de unión", webPageURL := "No disponible" } ::
          post.map processLine ∧
    (urlRecords env url).length = pre.length + post.length + 1 := by
  constructor
  · simp [urlRecords, h, processLine]
  · simp only [urlRecords, h, List.length_map, List.length_append,
      List.length_cons]
    omega

/-- C4 witness: the amended theorem applied to a three-line file whose
middle line is malformed. -/
theorem c4_malformed_line_placeholder_witness :
    urlRecords envMixedFile "https://file" =
      [JsonLine.parsed { body := none }].map processLine ++
        { eventType := "Error de unión", webPageURL := "No disponible" } ::
          [JsonLine.parsed { body := none }].map processLine ∧
    (urlRecords envMixedFile "https://file").length = 1 + 1 + 1 :=
  c4_malformed_line_placeholder envMixedFile "https://file"
    [JsonLine.parsed { body := none }] [JsonLine.parsed { body := none }] rfl

/-- C5: a non-`None`, non-empty `error_message` makes
`build_card_message` return the single error card whose sole widget
holds the message verbatim, whatever the other arguments are. -/
theorem c5_error_message_priority (now : String) (fb pb db ds : PyVal)
    (s : String) (h : s ≠ "") :
    build_card_message now fb pb db ds (PyVal.pyStr s) =
      Except.ok (errorCard now s) ∧
    errorCard now s =
      { cards := [
          { header :=
              { title := "<b> ¡Algo ha salido mal! </b>"
                subtitle := "Enviado: <b>" ++ now ++ "</b>"
                imageUrl := "https://png.pngtree.com/png-vector/20230904/ourmid/pngtree-fail-stamp-grungy-png-image_9932568.png" }
            sections := [ { widgets := [Widget.textParagraph s] } ] } ] } := by
  refine ⟨?_, rfl⟩
  simp [build_card_message, pyTruthy, pyFormat, h]

/-- C5 witness: the error branch at concrete arguments. -/
theorem c5_error_message_priority_witness :
    build_card_message "2024-01-02 09:00:00" (PyVal.pyBatches [("b", batchNoTags)])
        (PyVal.pyRecords []) (PyVal.pyNat 1) (PyVal.pyStr "ds")
        (PyVal.pyStr "<b>Error HTTP:</b>\n\n boom") =
      Except.ok (errorCard "2024-01-02 09:00:00" "<b>Error HTTP:</b>\n\n boom") :=
  (c5_error_message_priority "2024-01-02 09:00:00" _ _ _ _ _ (by decide)).1

/-- C6: with a falsy `failed_batches` and no error message,
`build_card_message` returns the "no errors" card whose text carries
`int(days_back * 24)` hours and the dataset id. -/
theorem c6_no_errors_card (now : String) (pb : PyVal) (n : Nat) (d : String)
    (fb em : PyVal)
    (hfb : fb = PyVal.pyNone ∨ fb = PyVal.pyBatches [])
    (hem : em = PyVal.pyNone ∨ em = PyVal.pyStr "") :
    build_card_message now fb pb (PyVal.pyNat n) (PyVal.pyStr d) em =
      Except.ok (noErrorsCard now (n * 24) d) ∧
    noErrorsCard now (n * 24) d =
      { cards := [
          { header :=
              { title := "<b> Informe de alertas </b>"
                subtitle := "Enviado: <b>" ++ now ++ "</b>"
                imageUrl := "https://cdn-icons-png.freepik.com/256/16206/16206597.png?semt=ais_hybrid" }
            sections := [
              { widgets := [Widget.textParagraph
                  ("No se encontraron errores en las últimas <b>" ++
                   toString (n * 24) ++
                   "</b> horas.\n\n<b>Dataset ID:</b> " ++ d)] } ] } ] } := by
  rcases hfb with rfl | rfl <;> rcases hem with rfl | rfl <;>
    exact ⟨by simp [build_card_message, pyTruthy, pyMulInt, pyFormat,
      Except.map, noErrorsCard], rfl⟩

/-- C6 witness: the "no errors" card at concrete arguments. -/
theorem c6_no_errors_card_witness :
    build_card_message "2024-01-02 09:00:00" PyVal.pyNone (PyVal.pyRecords [])
        (PyVal.pyNat 1) (PyVal.pyStr "dataset123") PyVal.pyNone =
      Except.ok (noErrorsCard "2024-01-02 09:00:00" 24 "dataset123") :=
  (c6_no_errors_card "2024-01-02 09:00:00" (PyVal.pyRecords []) 1 "dataset123"
    PyVal.pyNone PyVal.pyNone (Or.inl rfl) (Or.inl rfl)).1

/-- C7: a transport/HTTP error of the top-level query yields
`(None, None, formatted error)`, a successful empty result yields
`(None, None, None)`, and the two are distinguishable by the third
component. -/
theorem c7_fetch_error_vs_empty (env : HttpEnv) (e : String) :
    get_failed_batches_data env (Except.error e) =
      (none, none, some ("<b>Error HTTP:</b>\n\n " ++ e)) ∧
    get_failed_batches_data env (Except.ok []) = (none, none, none) ∧
    (get_failed_batches_data env (Except.error e)).2.2 ≠
      (get_failed_batches_data env (Except.ok [])).2.2 := by
  refine ⟨rfl, rfl, ?_⟩
  simp [get_failed_batches_data]

/-- C9: the notifier does not POST a `None` message nor a message whose
`cards` entry is absent or empty, and POSTs any other message to the
webhook as JSON with `Content-Type: application/json`. -/
theorem c9_notifier_guard (webhook : String) (m : Option RawMessage) :
    (m = none →
      post_message_to_google_chat webhook m = SendAction.logErrorNoSend) ∧
    (∀ r, m = some r → r.cards = none →
      post_message_to_google_chat webhook m = SendAction.logErrorNoSend) ∧
    (∀ r, m = some r → r.cards = some [] →
      post_message_to_google_chat webhook m = SendAction.logErrorNoSend) ∧
    (∀ r cs, m = some r → r.cards = some cs → cs ≠ [] →
      post_message_to_google_chat webhook m =
        SendAction.post webhook r "application/json") := by
  refine ⟨?_, ?_, ?_, ?_⟩
  · rintro rfl; rfl
  · rintro r rfl hc; simp [post_message_to_google_chat, hc]
  · rintro r rfl hc; simp [post_message_to_google_chat, hc]
  · rintro r cs rfl hc hne
    cases cs with
    | nil => exact absurd rfl hne
    | cons c cs' => simp [post_message_to_google_chat, hc]

/-- C9 witness: the guard at `None`, at an absent `cards` key, at an
empty `cards` list, and the POST at a one-card message. -/
theorem c9_notifier_guard_witness :
    post_message_to_google_chat "https://hook" none = SendAction.logErrorNoSend ∧
    post_message_to_google_chat "https://hook" (some { cards := none }) =
      SendAction.logErrorNoSend ∧
    post_message_to_google_chat "https://hook" (some { cards := some [] }) =
      SendAction.logErrorNoSend ∧
    post_message_to_google_chat "https://hook" (some { cards := some [sampleCard] }) =
      SendAction.post "https://hook" { cards := some [sampleCard] }
        "application/json" :=
  ⟨(c9_notifier_guard "https://hook" none).1 rfl,
   (c9_notifier_guard "https://hook" (some { cards := none })).2.1 _ rfl rfl,
   (c9_notifier_guard "https://hook" (some { cards := some [] })).2.2.1 _ rfl rfl,
   (c9_notifier_guard "https://hook" (some { cards := some [sampleCard] })).2.2.2
     _ _ rfl rfl (by simp)⟩

/-- C10: the query window is `[now - days_back, now]` in millisecond
epoch integers: `createdBefore` is the epoch millis of `now`,
`createdAfter` sits exactly `days_back * 24 * 3600 * 1000` ms earlier,
and the spec's example instance holds: `days_back = 1` at
`now = 2024-01-02T00:00:00Z` gives `createdAfter` = epoch millis of
`2024-01-01T00:00:00Z` and `createdBefore` = epoch millis of
`2024-01-02T00:00:00Z`. -/
theorem c10_query_window (nowMicros days_back : Nat) (ds : String)
    (h : days_back * microsPerDay ≤ nowMicros) :
    (query_params nowMicros days_back ds).createdBefore = epochMillis nowMicros ∧
    (query_params nowMicros days_back ds).createdAfter + days_back * 86400000 =
      (query_params nowMicros days_back ds).createdBefore ∧
    query_params 1704153600000000 1 ds =
      { dataSet := ds, createdAfter := 1704067200000,
        createdBefore := 1704153600000, status := "failed",
        orderBy := "asc:created" } := by
  refine ⟨rfl, ?_, ?_⟩
  · simp only [query_params, epochMillis, microsPerDay] at *
    omega
  · simp [query_params, epochMillis, microsPerDay]

/-- C10 witness: the window at the spec's example instant. -/
theorem c10_query_window_witness :
    (query_params 1704153600000000 1 "dataset123").createdBefore =
      epochMillis 1704153600000000 ∧
    (query_params 1704153600000000 1 "dataset123").createdAfter + 1 * 86400000 =
      (query_params 1704153600000000 1 "dataset123").createdBefore ∧
    query_params 1704153600000000 1 "dataset123" =
      { dataSet := "dataset123", createdAfter := 1704067200000,
        createdBefore := 1704153600000, status := "failed",
        orderBy := "asc:created" } :=
  c10_query_window 1704153600000000 1 "dataset123" (by norm_num [microsPerDay])

end AEPAlertas
